import Mathlib

/-!
Shallow embedding of the temperature-bot repository (message_parser.py,
slack_bot.py, phone_caller.py, app.py) and proofs of the specification
claims about it.

Python strings are embedded as Lean `String`, Python floats (timestamps)
as `ℚ`, Python ints as `Int`/`Nat`, fallible transport calls as `Except`
inputs, and the side effects of a handler as an ordered `List Event`.
-/

namespace TempBot

/-! ### message_parser.py : the TemperatureAction enum -/

/-- The `TemperatureAction` enum of message_parser.py:
INCREASE = "increase" (too cold), DECREASE = "decrease" (too hot), NONE = "none". -/
inductive TemperatureAction where
  | INCREASE
  | DECREASE
  | NONE
deriving DecidableEq, Repr

/-- The `.value` string of each `TemperatureAction` member. -/
def TemperatureAction.value : TemperatureAction → String
  | .INCREASE => "increase"
  | .DECREASE => "decrease"
  | .NONE => "none"

/-! ### A small regular-expression engine covering exactly the constructs
used by the keyword patterns of message_parser.py: literal characters,
`\b` word boundaries, the `\s` class with `+` and `*`, optional groups
`(...)?` and alternation `(a|b)`. -/

/-- Python's `\w` on the ASCII inputs at hand: letters, digits and underscore. -/
def isWordChar (c : Char) : Bool := c.isAlphanum || c == '_'

/-- Python's `\s` class: space, tab, newline, carriage return, vertical tab, form feed. -/
def isPySpace (c : Char) : Bool :=
  c == ' ' || c == '\t' || c == '\n' || c == '\r' || c == '\x0b' || c == '\x0c'

/-- Regular expressions, restricted to the constructs the source patterns use. -/
inductive Re where
  | eps
  | ch (c : Char)
  | wsChar
  | wordB
  | seq (a b : Re)
  | alt (a b : Re)
  | opt (a : Re)
  | wsStar
deriving Repr

/-- States reachable by consuming zero or more whitespace characters:
each state is (previous character, remaining input). -/
def wsRuns : Option Char → List Char → List (Option Char × List Char)
  | p, [] => [(p, [])]
  | p, d :: s => (p, d :: s) :: (if isPySpace d then wsRuns (some d) s else [])

/-- Whether a `\b` word boundary holds between the previous character and the
remaining input (string edges count as non-word). -/
def atWordBoundary (p : Option Char) (s : List Char) : Bool :=
  let before := match p with | none => false | some c => isWordChar c
  let after := match s with | [] => false | c :: _ => isWordChar c
  before != after

/-- All states (previous character, remaining input) in which a match of the
regular expression starting at the given state can end.  Full backtracking:
the match is possible iff the list is nonempty. -/
def Re.runs : Re → Option Char → List Char → List (Option Char × List Char)
  | .eps, p, s => [(p, s)]
  | .ch _, _, [] => []
  | .ch c, _, d :: s => if d == c then [(some d, s)] else []
  | .wsChar, _, [] => []
  | .wsChar, _, d :: s => if isPySpace d then [(some d, s)] else []
  | .wordB, p, s => if atWordBoundary p s then [(p, s)] else []
  | .seq a b, p, s => (a.runs p s).flatMap (fun q => b.runs q.1 q.2)
  | .alt a b, p, s => a.runs p s ++ b.runs p s
  | .opt a, p, s => (p, s) :: a.runs p s
  | .wsStar, p, s => wsRuns p s

/-- Whether the regular expression matches at the current position. -/
def Re.matchesAt (r : Re) (p : Option Char) (s : List Char) : Bool :=
  !(r.runs p s).isEmpty

/-- Python `re.search`: the pattern matches starting at some position. -/
def searchFrom (r : Re) (p : Option Char) : List Char → Bool
  | [] => r.matchesAt p []
  | c :: rest => r.matchesAt p (c :: rest) || searchFrom r (some c) rest

/-- `re.search(pattern, message)` as a Boolean, over the message's characters. -/
def reSearch (r : Re) (message : List Char) : Bool :=
  searchFrom r none message

/-- Sequence a list of regular expressions. -/
def reSeq (l : List Re) : Re := l.foldr Re.seq Re.eps

/-- A literal string as a regular expression. -/
def reLits (s : String) : Re := reSeq (s.data.map Re.ch)

/-- The pattern `\s+`. -/
def wsPlus : Re := Re.seq Re.wsChar Re.wsStar

/-- A whole word: `\b…\b` around a literal. -/
def reWord (s : String) : Re := reSeq [Re.wordB, reLits s, Re.wordB]

/-- The optional group `(the\s+)?`. -/
def optThe : Re := Re.opt (Re.seq (reLits "the") wsPlus)

/-! ### message_parser.py : COLD_KEYWORDS and HOT_KEYWORDS -/

/-- `COLD_KEYWORDS` of message_parser.py, each regex pattern compiled into `Re`. -/
def COLD_KEYWORDS : List Re := [
  reWord "cold",
  reWord "freezing",
  reWord "chilly",
  reWord "cool",
  reWord "shivering",
  reSeq [reLits "too", wsPlus, reLits "cold"],
  reSeq [reLits "very", wsPlus, reLits "cold"],
  reSeq [reLits "increase", wsPlus, optThe, reLits "temp"],
  reSeq [reLits "turn", wsPlus, Re.alt (reLits "up") (reLits "on"), wsPlus, optThe,
         Re.alt (reLits "heat") (Re.alt (reLits "ac") (reLits "temperature"))],
  reSeq [reLits "raise", wsPlus, optThe, reLits "temp"],
  reLits "warmer",
  reSeq [reLits "warm", wsPlus, reLits "it", wsPlus, reLits "up"]
]

/-- `HOT_KEYWORDS` of message_parser.py, each regex pattern compiled into `Re`. -/
def HOT_KEYWORDS : List Re := [
  reWord "hot",
  reWord "warm",
  reWord "sweating",
  reWord "stuffy",
  reWord "boiling",
  reSeq [reLits "too", wsPlus, reLits "hot"],
  reSeq [reLits "very", wsPlus, reLits "hot"],
  reSeq [reLits "too", wsPlus, reLits "warm"],
  reSeq [reLits "decrease", wsPlus, optThe, reLits "temp"],
  reSeq [reLits "reduce", wsPlus, optThe, reLits "temp"],
  reSeq [reLits "turn", wsPlus, Re.alt (reLits "up") (reLits "on"), wsPlus, optThe,
         Re.alt (reLits "ac") (Re.seq (reLits "air") (Re.seq Re.wsStar (reLits "con")))],
  reSeq [reLits "turn", wsPlus, reLits "down", wsPlus, optThe,
         Re.alt (reLits "heat") (reLits "temperature")],
  reSeq [reLits "lower", wsPlus, optThe, reLits "temp"],
  reLits "cooler",
  reSeq [reLits "cool", wsPlus, reLits "it", wsPlus, reLits "down"]
]

/-- `parse_temperature_request` of message_parser.py: lower-case the message,
return INCREASE on the first cold-keyword match, else DECREASE on the first
hot-keyword match, else NONE. -/
def parse_temperature_request (message : String) : TemperatureAction :=
  let message_lower := message.data.map Char.toLower
  if COLD_KEYWORDS.any (fun pattern => reSearch pattern message_lower) then
    TemperatureAction.INCREASE
  else if HOT_KEYWORDS.any (fun pattern => reSearch pattern message_lower) then
    TemperatureAction.DECREASE
  else
    TemperatureAction.NONE

/-- `get_action_description` of message_parser.py. -/
def get_action_description (action : TemperatureAction) : String :=
  if action = TemperatureAction.INCREASE then
    "increase the temperature (it's too cold)"
  else if action = TemperatureAction.DECREASE then
    "decrease the temperature (it's too hot)"
  else
    "no temperature change needed"

/-! ### phone_caller.py : get_tts_message and make_temperature_call -/

/-- `get_tts_message` of phone_caller.py: the text-to-speech script per action,
empty for NONE. -/
def get_tts_message (action : TemperatureAction) : String :=
  if action = TemperatureAction.INCREASE then
    "Hi, this is an automated call from Plivo. The employees have reported that the temperature is too cold. Please increase the AC temperature. Thank you."
  else if action = TemperatureAction.DECREASE then
    "Hi, this is an automated call from Plivo. The employees have reported that the temperature is too hot. Please reduce the AC temperature. Thank you."
  else
    ""

/-- Result dict of `make_temperature_call`: success with a call uuid, or
failure with an error string. -/
inductive CallResult where
  | ok (call_uuid : String)
  | err (error : String)
deriving DecidableEq, Repr

/-- The dict's `success` key. -/
def CallResult.success : CallResult → Bool
  | .ok _ => true
  | .err _ => false

/-- The dict's `result.get("error", "Unknown error")` lookup. -/
def CallResult.errorOrUnknown : CallResult → String
  | .err e => e
  | .ok _ => "Unknown error"

/-- `make_temperature_call` of phone_caller.py: NONE fails without dialling;
otherwise the Plivo client's outcome (modelled as an `Except` input) becomes
success with the request uuid, or failure with the raised error's string. -/
def make_temperature_call (action : TemperatureAction)
    (plivoResult : Except String String) : CallResult :=
  if action = TemperatureAction.NONE then
    CallResult.err "No action required"
  else
    match plivoResult with
    | .ok uuid => CallResult.ok uuid
    | .error e => CallResult.err e

/-! ### app.py : the /plivo-xml/<action> endpoint -/

/-- `TemperatureAction(value)`: the enum member with the given `.value`, or a
ValueError (modelled as `none`). -/
def temperatureActionOfValue (s : String) : Option TemperatureAction :=
  if s = "increase" then some TemperatureAction.INCREASE
  else if s = "decrease" then some TemperatureAction.DECREASE
  else if s = "none" then some TemperatureAction.NONE
  else none

/-- The generic fallback script of app.py's `plivo_xml`. -/
def GENERIC_TTS : String :=
  "Hello, this is an automated call from your office regarding temperature control."

/-- `plivo_xml` of app.py: convert the path parameter to a `TemperatureAction`
(ValueError becomes NONE), fetch the TTS script, substitute the generic script
when it is empty, and answer with it (wrapped in Plivo XML by the caller).
Total: every path parameter yields a script, never an error response. -/
def plivo_xml (action : String) : String :=
  let temp_action := match temperatureActionOfValue action with
    | some a => a
    | none => TemperatureAction.NONE
  let tts_message := get_tts_message temp_action
  let tts_message := if tts_message = "" then GENERIC_TTS else tts_message
  tts_message

/-! ### slack_bot.py : constants, state and effects -/

/-- `CALL_COOLDOWN_SECONDS = 1 * 60` of slack_bot.py. -/
def CALL_COOLDOWN_SECONDS : ℚ := 1 * 60

/-- `POLL_DURATION_SECONDS = 60` of slack_bot.py. -/
def POLL_DURATION_SECONDS : ℚ := 60

/-- `POLL_EMOJI_AGREE = "+1"` of slack_bot.py. -/
def POLL_EMOJI_AGREE : String := "+1"

/-- `POLL_EMOJI_DISAGREE = "-1"` of slack_bot.py. -/
def POLL_EMOJI_DISAGREE : String := "-1"

/-- The `self.active_poll` dict of slack_bot.py. -/
structure ActivePoll where
  channel : String
  ts : String
  action : TemperatureAction
  requester : String
deriving DecidableEq, Repr

/-- The mutable fields of `TemperatureBot` the claims concern:
`self.last_call_time` (a float timestamp, embedded as ℚ) and
`self.active_poll`. -/
structure BotState where
  last_call_time : ℚ
  active_poll : Option ActivePoll
deriving DecidableEq, Repr

/-- The ordered side effects a handler performs: chat posts, reactions,
timer scheduling, the phone-call dispatch, the cooldown-file write, and the
`self.active_poll = None` assignment of the `finally` block. -/
inductive Event where
  | chatPost (channel text : String)
  | addReaction (channel ts emoji : String)
  | scheduleTimer (seconds : ℚ) (channel ts : String) (action : TemperatureAction)
  | reactionsGet (channel ts : String)
  | dispatchCall (action : TemperatureAction)
  | saveLastCall (t : ℚ)
  | setActivePollNone
deriving DecidableEq, Repr

/-- Whether an event is the phone-call dispatch. -/
def Event.isDispatch : Event → Bool
  | .dispatchCall _ => true
  | _ => false

/-- Whether an event is the reaction read of the tally step. -/
def Event.isReactionsGet : Event → Bool
  | .reactionsGet _ _ => true
  | _ => false

/-- Whether an event is the `self.active_poll = None` assignment. -/
def Event.isClearActive : Event → Bool
  | .setActivePollNone => true
  | _ => false

/-- Index of the first phone-call dispatch in a trace (the length if none). -/
def dispatchIdx (evs : List Event) : ℕ := evs.findIdx Event.isDispatch

/-- Index of the first `self.active_poll = None` assignment in a trace. -/
def clearIdx (evs : List Event) : ℕ := evs.findIdx Event.isClearActive

/-- Python `int(x)` on the embedded rational: truncation toward zero
(the numerator and denominator are coprime, so `tdiv` is exact truncation). -/
def pyInt (x : ℚ) : Int := x.num.tdiv (x.den : Int)

/-! ### slack_bot.py : message texts -/

/-- The poll message posted by `_start_poll`. -/
def poll_message_text (action : TemperatureAction) : String :=
  let action_hint :=
    if action = TemperatureAction.DECREASE then "(make it cooler)" else "(make it warmer)"
  "🌡️ *Wish to change temperature? " ++ action_hint ++
    "*\n\nPlease vote:\n• 👍 - Yes\n• 👎 - No\n\n_Poll ends in " ++
    toString POLL_DURATION_SECONDS ++
    " seconds. Action will be taken if majority agrees._"

/-- The no-votes message of `_complete_poll`. -/
def no_votes_text : String :=
  "⏱️ Poll ended with no votes. No action will be taken."

/-- The majority-did-not-agree message of `_complete_poll`. -/
def poll_rejected_text (agree disagree : Int) : String :=
  "⏱️ Poll ended. Majority did not agree (" ++ toString agree ++ " yes, " ++
    toString disagree ++ " no). No action will be taken."

/-- The error message of `_complete_poll`'s except branch. -/
def poll_error_text (e : String) : String :=
  "❌ Error processing poll results: " ++ e

/-- The success confirmation of `_execute_temperature_action`. -/
def call_success_text (agree disagree : Int) (action : TemperatureAction) : String :=
  "✅ Poll passed (" ++ toString agree ++ " yes, " ++ toString disagree ++
    " no)! Calling facilities to " ++ get_action_description action ++ "."

/-- The call-failure message of `_execute_temperature_action`; the executor's
error string is its final segment. -/
def call_failed_text (agree disagree : Int) (error : String) : String :=
  ("⏱️ Poll passed (" ++ toString agree ++ " yes, " ++ toString disagree ++
    " no), but couldn't place the call. Error: ") ++ error

/-- The cooldown message of `handle_message`. -/
def cooldown_wait_text (remaining_minutes : Int) : String :=
  "I noticed the temperature request, but a call was already made recently. " ++
    "To avoid duplicate calls, please wait " ++ toString remaining_minutes ++
    " more minutes before the next call can be placed."

/-- The poll-already-active message of `handle_message`. -/
def poll_in_progress_text : String :=
  "A temperature poll is already in progress. Please vote on the existing poll!"

/-! ### slack_bot.py : the handlers -/

/-- `_start_poll` of slack_bot.py: post the poll message, seed the two vote
reactions, store the active poll, schedule the completion timer.  The
transport's returned message timestamp is the `poll_ts` input. -/
def _start_poll (st : BotState) (channel : String) (action : TemperatureAction)
    (requester : String) (poll_ts : String) : BotState × List Event :=
  let poll : ActivePoll :=
    { channel := channel, ts := poll_ts, action := action, requester := requester }
  ({ st with active_poll := some poll },
   [Event.chatPost channel (poll_message_text action),
    Event.addReaction channel poll_ts POLL_EMOJI_AGREE,
    Event.addReaction channel poll_ts POLL_EMOJI_DISAGREE,
    Event.scheduleTimer POLL_DURATION_SECONDS channel poll_ts action])

/-- The tally loop of `_complete_poll`: scan the reaction report; a "+1" entry
sets `agree_count` to its count minus one, a "-1" entry sets `disagree_count`
to its count minus one (the minus one compensates the bot's seed reaction). -/
def reactionTally (reactions : List (String × Int)) : Int × Int :=
  reactions.foldl
    (fun acc reaction =>
      if reaction.1 = POLL_EMOJI_AGREE then (reaction.2 - 1, acc.2)
      else if reaction.1 = POLL_EMOJI_DISAGREE then (acc.1, reaction.2 - 1)
      else acc)
    (0, 0)

/-- `_execute_temperature_action` of slack_bot.py: place the call; on success
set and persist `last_call_time` and post the confirmation; on failure post
the failure message with the executor's error and leave the cooldown alone. -/
def _execute_temperature_action (st : BotState) (channel : String)
    (action : TemperatureAction) (agree disagree : Int)
    (plivoResult : Except String String) (current_time : ℚ) : BotState × List Event :=
  let result := make_temperature_call action plivoResult
  if result.success then
    ({ st with last_call_time := current_time },
     [Event.dispatchCall action, Event.saveLastCall current_time,
      Event.chatPost channel (call_success_text agree disagree action)])
  else
    (st,
     [Event.dispatchCall action,
      Event.chatPost channel (call_failed_text agree disagree result.errorOrUnknown)])

/-- The outcome a completed poll resolves to (the branch `_complete_poll`
takes). -/
inductive Outcome where
  | NoVotes
  | Approved
  | Rejected
  | Error
deriving DecidableEq, Repr

/-- `_complete_poll` of slack_bot.py: read the reactions (the transport's
answer or error is the `reactionsResult` input), tally, branch on the decision
rule; the `finally` block's `self.active_poll = None` is the trailing
`setActivePollNone` event and the cleared slot in the returned state. -/
def _complete_poll (st : BotState) (channel : String) (poll_ts : String)
    (action : TemperatureAction)
    (reactionsResult : Except String (List (String × Int)))
    (plivoResult : Except String String) (current_time : ℚ) :
    BotState × Outcome × List Event :=
  match reactionsResult with
  | .error e =>
      ({ st with active_poll := none }, Outcome.Error,
       [Event.reactionsGet channel poll_ts,
        Event.chatPost channel (poll_error_text e), Event.setActivePollNone])
  | .ok reactions =>
      let tally := reactionTally reactions
      let agree_count := tally.1
      let disagree_count := tally.2
      let total_votes := agree_count + disagree_count
      if total_votes = 0 then
        ({ st with active_poll := none }, Outcome.NoVotes,
         [Event.reactionsGet channel poll_ts,
          Event.chatPost channel no_votes_text, Event.setActivePollNone])
      else if agree_count > disagree_count then
        let r := _execute_temperature_action st channel action agree_count disagree_count
          plivoResult current_time
        ({ r.1 with active_poll := none }, Outcome.Approved,
         Event.reactionsGet channel poll_ts :: r.2 ++ [Event.setActivePollNone])
      else
        ({ st with active_poll := none }, Outcome.Rejected,
         [Event.reactionsGet channel poll_ts,
          Event.chatPost channel (poll_rejected_text agree_count disagree_count),
          Event.setActivePollNone])

/-- An inbound Slack message event: its subtype marker (present on edits and
bot messages), text, channel and user. -/
structure MessageEvent where
  subtype : Option String
  text : String
  channel : String
  user : String
deriving DecidableEq, Repr

/-- Which branch of `handle_message` ran. -/
inductive RouterResult where
  | ignoredSubtype
  | noAction
  | cooldownWait (remaining_minutes : Int)
  | pollInProgress
  | startPoll (action : TemperatureAction)
deriving DecidableEq, Repr

/-- `handle_message` of slack_bot.py: ignore subtyped events; classify; on a
detected action check the cooldown first (posting the remaining wait in
minutes, rounded toward zero), then the active poll (posting the redirect),
and only then start a poll.  `current_time` is `time.time()`, `poll_ts` the
transport's timestamp for a newly posted poll. -/
def handle_message (st : BotState) (ev : MessageEvent) (current_time : ℚ)
    (poll_ts : String) : BotState × RouterResult × List Event :=
  if ev.subtype.isSome then
    (st, RouterResult.ignoredSubtype, [])
  else
    let action := parse_temperature_request ev.text
    if action = TemperatureAction.NONE then
      (st, RouterResult.noAction, [])
    else
      let time_since_last_call := current_time - st.last_call_time
      if time_since_last_call < CALL_COOLDOWN_SECONDS then
        let remaining_minutes := pyInt ((CALL_COOLDOWN_SECONDS - time_since_last_call) / 60)
        (st, RouterResult.cooldownWait remaining_minutes,
         [Event.chatPost ev.channel (cooldown_wait_text remaining_minutes)])
      else if st.active_poll.isSome then
        (st, RouterResult.pollInProgress,
         [Event.chatPost ev.channel poll_in_progress_text])
      else
        let r := _start_poll st ev.channel action ev.user poll_ts
        (r.1, RouterResult.startPoll action, r.2)

/-! ### Concurrency model of the active-poll slot

slack_bolt runs each message handler on its own worker thread, and the poll
timer fires on yet another thread.  `handle_message` reads
`self.active_poll is not None` in one step and `_start_poll` writes the slot
in a later separate step; `_complete_poll`'s `finally` clears it.  The
fine-grained system below interleaves those primitive steps; a thread state
is summarised by how far it has got.  A poll is Open from the `_start_poll`
write until its `_complete_poll` runs (`openCount` counts those). -/

/-- Global state of the interleaved system: whether `self.active_poll` is set,
how many started polls have not yet completed, and how many qualifying
message handlers stand before the active-poll read (`checking`) or have read
`None` and are about to run `_start_poll` (`opening`). -/
structure SysState where
  slotBusy : Bool
  openCount : ℕ
  checking : ℕ
  opening : ℕ
deriving DecidableEq, Repr

/-- One primitive step of the interleaved system: a qualifying, non-cooldown
message arrives; a handler reads the slot (busy: it posts the redirect and
stops; free: it proceeds to `_start_poll`); a proceeding handler writes the
slot and starts its poll; a poll timer completes a poll and clears the slot. -/
inductive SysStep : SysState → SysState → Prop where
  | arrive (s : SysState) :
      SysStep s { s with checking := s.checking + 1 }
  | checkBusy (s : SysState) (h : 0 < s.checking) (hb : s.slotBusy = true) :
      SysStep s { s with checking := s.checking - 1 }
  | checkFree (s : SysState) (h : 0 < s.checking) (hb : s.slotBusy = false) :
      SysStep s { s with checking := s.checking - 1, opening := s.opening + 1 }
  | openPoll (s : SysState) (h : 0 < s.opening) :
      SysStep s { s with opening := s.opening - 1, slotBusy := true,
                         openCount := s.openCount + 1 }
  | complete (s : SysState) (h : 0 < s.openCount) :
      SysStep s { s with openCount := s.openCount - 1, slotBusy := false }

/-- The initial system state: no poll, no in-flight handler. -/
def sysInit : SysState := { slotBusy := false, openCount := 0, checking := 0, opening := 0 }

/-- Reachability in the interleaved system. -/
def SysReachable (s : SysState) : Prop := Relation.ReflTransGen SysStep sysInit s

/-- The same system with the router's active-poll check and `_start_poll`'s
slot write fused into one atomic step (sequential processing of each
message), the repair the spec's design notes call for. -/
structure SeqState where
  slotBusy : Bool
  openCount : ℕ
deriving DecidableEq, Repr

/-- Which component a step belongs to: a routed qualifying message, or the
timer-driven resolve. -/
inductive StepLabel where
  | message
  | resolve
deriving DecidableEq, Repr

/-- Atomic steps: a qualifying message either opens a poll (slot free) or is
acknowledged with the redirect and changes nothing (slot busy); the resolve
step completes a poll and vacates the slot. -/
inductive SeqStep : SeqState → StepLabel → SeqState → Prop where
  | msgOpen (s : SeqState) (hb : s.slotBusy = false) :
      SeqStep s StepLabel.message { slotBusy := true, openCount := s.openCount + 1 }
  | msgRejected (s : SeqState) (hb : s.slotBusy = true) :
      SeqStep s StepLabel.message s
  | complete (s : SeqState) (h : 0 < s.openCount) :
      SeqStep s StepLabel.resolve { slotBusy := false, openCount := s.openCount - 1 }

/-- The atomic system's unlabelled step. -/
def SeqStepAny (s t : SeqState) : Prop := ∃ l, SeqStep s l t

/-- The initial atomic-system state. -/
def seqInit : SeqState := { slotBusy := false, openCount := 0 }

/-- Reachability in the atomic system. -/
def SeqReachable (s : SeqState) : Prop := Relation.ReflTransGen SeqStepAny seqInit s

/-! ### Predicates and fixtures used by the claim statements -/

/-- Whether the lower-cased text matches some cold-indicating pattern of
`COLD_KEYWORDS` ("contains a cold-indicating phrase"). -/
def matchesCold (text : String) : Bool :=
  COLD_KEYWORDS.any (fun pattern => reSearch pattern (text.data.map Char.toLower))

/-- Whether the lower-cased text matches some hot-indicating pattern of
`HOT_KEYWORDS` ("contains a hot-indicating phrase"). -/
def matchesHot (text : String) : Bool :=
  HOT_KEYWORDS.any (fun pattern => reSearch pattern (text.data.map Char.toLower))

/-- A concrete active poll used by concrete runs. -/
def fixturePoll : ActivePoll :=
  { channel := "C", ts := "t1", action := TemperatureAction.INCREASE, requester := "u" }

/-- A concrete approved resolution: reaction report Agree = 2 and
Disagree = 1 (both including the bot's seed), successful call, completed at
time 100. -/
def approvedRun : BotState × Outcome × List Event :=
  _complete_poll { last_call_time := 0, active_poll := some fixturePoll } "C" "t1"
    TemperatureAction.INCREASE (Except.ok [("+1", 2), ("-1", 1)]) (Except.ok "uuid") 100

/-- `_complete_poll` on the seeded reaction report Agree = N+1,
Disagree = M+1 (the bot's two seed reactions included). -/
def completeSeeded (N M : ℕ) (st : BotState) (channel poll_ts : String)
    (action : TemperatureAction) (pr : Except String String) (now : ℚ) :
    BotState × Outcome × List Event :=
  _complete_poll st channel poll_ts action
    (Except.ok [(POLL_EMOJI_AGREE, (N : ℤ) + 1), (POLL_EMOJI_DISAGREE, (M : ℤ) + 1)]) pr now

end TempBot

namespace TempBot

/-! ## Theorems -/

/-- The classifier's control flow, stated through the two match predicates:
cold patterns are consulted first, hot patterns only when no cold pattern
matched. -/
theorem parse_eq_ite (text : String) :
    parse_temperature_request text =
      if matchesCold text then TemperatureAction.INCREASE
      else if matchesHot text then TemperatureAction.DECREASE
      else TemperatureAction.NONE := rfl

/-- C3 counterexample: "cool it down" is a listed hot-indicating phrase, yet
it classifies as Warmer (INCREASE), not Cooler (DECREASE), because it also
matches the cold pattern `\bcool\b` and the cold list is consulted first. -/
theorem C3_counterexample :
    matchesHot "cool it down" = true ∧
    parse_temperature_request "cool it down" = TemperatureAction.INCREASE ∧
    parse_temperature_request "cool it down" ≠ TemperatureAction.DECREASE :=
  ⟨by decide, by decide, by decide⟩

/-- C3 (amended): a text matching a cold-indicating pattern and no
hot-indicating one classifies as Warmer; a text matching a hot-indicating
pattern and no cold-indicating one classifies as Cooler; a text matching
neither classifies as None; the seed cases hold; but a listed hot-indicating
phrase that also matches a cold-indicating pattern classifies as Warmer — in
particular "cool it down" yields Warmer, while a hot-listed phrase free of
cold matches such as "cooler" yields Cooler. -/
theorem C3_classification (text : String) :
    (matchesCold text = true → matchesHot text = false →
        parse_temperature_request text = TemperatureAction.INCREASE) ∧
    (matchesHot text = true → matchesCold text = false →
        parse_temperature_request text = TemperatureAction.DECREASE) ∧
    (matchesCold text = false → matchesHot text = false →
        parse_temperature_request text = TemperatureAction.NONE) ∧
    parse_temperature_request "it's freezing in here" = TemperatureAction.INCREASE ∧
    parse_temperature_request "so hot today, I'm sweating" = TemperatureAction.DECREASE ∧
    parse_temperature_request "lunch at noon?" = TemperatureAction.NONE ∧
    parse_temperature_request "cool it down" = TemperatureAction.INCREASE ∧
    parse_temperature_request "cooler" = TemperatureAction.DECREASE := by
  refine ⟨?_, ?_, ?_, by decide, by decide, by decide, by decide, by decide⟩
  · intro hc _
    rw [parse_eq_ite, hc]
    rfl
  · intro hh hc
    rw [parse_eq_ite, hc, hh]
    rfl
  · intro hc hh
    rw [parse_eq_ite, hc, hh]
    rfl

/-- C10: any text matching at least one cold-indicating pattern classifies as
Warmer (INCREASE), regardless of hot-pattern matches: the cold list is
consulted in full before any hot pattern. -/
theorem C10_cold_priority (text : String) (h : matchesCold text = true) :
    parse_temperature_request text = TemperatureAction.INCREASE := by
  rw [parse_eq_ite, h]
  rfl

/-- C10 witness: "cool it down" matches both a cold and a hot pattern and
classifies as Warmer. -/
theorem C10_witness :
    matchesCold "cool it down" = true ∧ matchesHot "cool it down" = true ∧
    parse_temperature_request "cool it down" = TemperatureAction.INCREASE :=
  ⟨by decide, by decide, C10_cold_priority "cool it down" (by decide)⟩

/-- C9: for every path-parameter value the voice-script endpoint yields a
nonempty text-to-speech script (never an error), and every value other than
"increase" and "decrease" yields the generic no-signal script. -/
theorem C9_script_total (action : String) :
    plivo_xml action ≠ "" ∧
    (action ≠ "increase" → action ≠ "decrease" → plivo_xml action = GENERIC_TTS) := by
  by_cases h1 : action = "increase"
  · subst h1
    exact ⟨by decide, fun h _ => absurd rfl h⟩
  · by_cases h2 : action = "decrease"
    · subst h2
      exact ⟨by decide, fun _ h => absurd rfl h⟩
    · have heq : plivo_xml action = GENERIC_TTS := by
        by_cases h3 : action = "none"
        · subst h3
          decide
        · unfold plivo_xml temperatureActionOfValue
          rw [if_neg h1, if_neg h2, if_neg h3]
          decide
      exact ⟨by rw [heq]; decide, fun _ _ => heq⟩

/-- On a non-NONE action, `_execute_temperature_action` with a failing Plivo
client leaves the state unchanged and posts the failure message carrying the
client's error. -/
theorem execute_failure_eq (st : BotState) (channel : String)
    (action : TemperatureAction) (agree disagree : ℤ) (e : String) (now : ℚ)
    (hact : action ≠ TemperatureAction.NONE) :
    _execute_temperature_action st channel action agree disagree (Except.error e) now =
      (st, [Event.dispatchCall action,
            Event.chatPost channel (call_failed_text agree disagree e)]) := by
  unfold _execute_temperature_action make_temperature_call
  rw [if_neg hact]
  rfl

/-- On a non-NONE action, `_execute_temperature_action` with a succeeding
Plivo client updates and persists the cooldown timestamp and posts the
confirmation. -/
theorem execute_success_eq (st : BotState) (channel : String)
    (action : TemperatureAction) (agree disagree : ℤ) (uuid : String) (now : ℚ)
    (hact : action ≠ TemperatureAction.NONE) :
    _execute_temperature_action st channel action agree disagree (Except.ok uuid) now =
      ({ st with last_call_time := now },
       [Event.dispatchCall action, Event.saveLastCall now,
        Event.chatPost channel (call_success_text agree disagree action)]) := by
  unfold _execute_temperature_action make_temperature_call
  rw [if_neg hact]
  rfl

/-- Whatever the executor reports, `_execute_temperature_action`'s first
effect is the phone-call dispatch. -/
theorem execute_head_dispatch (st : BotState) (channel : String)
    (action : TemperatureAction) (agree disagree : ℤ)
    (pr : Except String String) (now : ℚ) :
    ∃ rest, (_execute_temperature_action st channel action agree disagree pr now).2
      = Event.dispatchCall action :: rest := by
  simp only [_execute_temperature_action]
  split
  · exact ⟨_, rfl⟩
  · exact ⟨_, rfl⟩

/-- C5: a failed external action leaves `last_call_time` unchanged, posts a
failure message ending in the executor's reported error, and writes no
cooldown file; a successful one sets `last_call_time` to the completion time
and persists it. -/
theorem C5_failure_no_cooldown (st : BotState) (channel : String)
    (action : TemperatureAction) (agree disagree : ℤ) (e uuid : String) (now : ℚ)
    (hact : action ≠ TemperatureAction.NONE) :
    ((_execute_temperature_action st channel action agree disagree (Except.error e) now).1.last_call_time
        = st.last_call_time) ∧
    (Event.chatPost channel (call_failed_text agree disagree e)
        ∈ (_execute_temperature_action st channel action agree disagree (Except.error e) now).2) ∧
    (∃ p, call_failed_text agree disagree e = p ++ e) ∧
    (∀ t, Event.saveLastCall t ∉
        (_execute_temperature_action st channel action agree disagree (Except.error e) now).2) ∧
    ((_execute_temperature_action st channel action agree disagree (Except.ok uuid) now).1.last_call_time
        = now) ∧
    (Event.saveLastCall now
        ∈ (_execute_temperature_action st channel action agree disagree (Except.ok uuid) now).2) := by
  rw [execute_failure_eq st channel action agree disagree e now hact,
      execute_success_eq st channel action agree disagree uuid now hact]
  refine ⟨rfl, by simp, ⟨_, rfl⟩, ?_, rfl, by simp⟩
  intro t
  simp

/-- C5 witness: at a concrete failing run the cooldown timestamp stays 0, and
at a concrete successful run the file write of time 100 happens. -/
theorem C5_witness :
    ((_execute_temperature_action { last_call_time := 0, active_poll := none } "C"
        TemperatureAction.INCREASE 2 0 (Except.error "plivo down") 100).1.last_call_time
      = ({ last_call_time := 0, active_poll := none } : BotState).last_call_time) ∧
    (Event.saveLastCall 100
        ∈ (_execute_temperature_action { last_call_time := 0, active_poll := none } "C"
            TemperatureAction.INCREASE 2 0 (Except.ok "uuid") 100).2) :=
  ⟨(C5_failure_no_cooldown { last_call_time := 0, active_poll := none } "C"
      TemperatureAction.INCREASE 2 0 "plivo down" "uuid" 100 (by decide)).1,
   (C5_failure_no_cooldown { last_call_time := 0, active_poll := none } "C"
      TemperatureAction.INCREASE 2 0 "plivo down" "uuid" 100 (by decide)).2.2.2.2.2⟩

/-- C6: when the reaction read raises a transport error, the outcome is
Error, the only effects are the single read, one informational post ending in
the error detail, and the `finally` slot clearing — no dispatch, no second
read (no retry) — and the returned state has the poll resolved (slot
cleared) with the cooldown untouched. -/
theorem C6_transport_error (st : BotState) (channel poll_ts : String)
    (action : TemperatureAction) (e : String) (pr : Except String String) (now : ℚ) :
    (_complete_poll st channel poll_ts action (Except.error e) pr now).2.1 = Outcome.Error ∧
    (_complete_poll st channel poll_ts action (Except.error e) pr now).2.2 =
      [Event.reactionsGet channel poll_ts,
       Event.chatPost channel (poll_error_text e), Event.setActivePollNone] ∧
    (∃ p, poll_error_text e = p ++ e) ∧
    (∀ a, Event.dispatchCall a ∉
        (_complete_poll st channel poll_ts action (Except.error e) pr now).2.2) ∧
    ((_complete_poll st channel poll_ts action (Except.error e) pr now).2.2.countP
        Event.isReactionsGet = 1) ∧
    (_complete_poll st channel poll_ts action (Except.error e) pr now).1.active_poll = none ∧
    (_complete_poll st channel poll_ts action (Except.error e) pr now).1.last_call_time
      = st.last_call_time := by
  refine ⟨rfl, rfl, ⟨_, rfl⟩, ?_, ?_, rfl, rfl⟩
  · intro a
    simp [_complete_poll]
  · simp [_complete_poll, List.countP_cons, Event.isReactionsGet]

/-- C1: for a resolved poll whose reaction report gives Agree = N+1 and
Disagree = M+1 (the bot's two seed reactions included), the computed tally
is (N, M); the outcome is Approved iff N > M (and exactly then a phone-call
dispatch occurs), Rejected iff N ≤ M and N+M > 0 (the no-action message is
posted), and NoVotes iff N = M = 0 (informational post only) — a tie takes
the same Rejected branch as majority-disagree. -/
theorem C1_tally_outcome (N M : ℕ) (st : BotState) (channel poll_ts : String)
    (action : TemperatureAction) (pr : Except String String) (now : ℚ) :
    reactionTally [(POLL_EMOJI_AGREE, (N : ℤ) + 1), (POLL_EMOJI_DISAGREE, (M : ℤ) + 1)]
        = ((N : ℤ), (M : ℤ)) ∧
    ((completeSeeded N M st channel poll_ts action pr now).2.1 = Outcome.Approved ↔ M < N) ∧
    ((completeSeeded N M st channel poll_ts action pr now).2.1 = Outcome.Rejected ↔
        (N ≤ M ∧ 0 < N + M)) ∧
    ((completeSeeded N M st channel poll_ts action pr now).2.1 = Outcome.NoVotes ↔
        (N = 0 ∧ M = 0)) ∧
    ((∃ a, Event.dispatchCall a ∈ (completeSeeded N M st channel poll_ts action pr now).2.2) ↔
        (completeSeeded N M st channel poll_ts action pr now).2.1 = Outcome.Approved) ∧
    ((completeSeeded N M st channel poll_ts action pr now).2.1 = Outcome.Rejected →
        Event.chatPost channel (poll_rejected_text (N : ℤ) (M : ℤ))
          ∈ (completeSeeded N M st channel poll_ts action pr now).2.2) ∧
    ((completeSeeded N M st channel poll_ts action pr now).2.1 = Outcome.NoVotes →
        (completeSeeded N M st channel poll_ts action pr now).2.2 =
          [Event.reactionsGet channel poll_ts, Event.chatPost channel no_votes_text,
           Event.setActivePollNone]) := by
  have hne : ¬(POLL_EMOJI_DISAGREE = POLL_EMOJI_AGREE) := by decide
  have htally : reactionTally [(POLL_EMOJI_AGREE, (N : ℤ) + 1), (POLL_EMOJI_DISAGREE, (M : ℤ) + 1)]
      = ((N : ℤ), (M : ℤ)) := by
    simp [reactionTally, hne]
  by_cases h0 : N = 0 ∧ M = 0
  · obtain ⟨hN, hM⟩ := h0
    subst hN
    subst hM
    have hrun : completeSeeded 0 0 st channel poll_ts action pr now =
        ({ st with active_poll := none }, Outcome.NoVotes,
         [Event.reactionsGet channel poll_ts, Event.chatPost channel no_votes_text,
          Event.setActivePollNone]) := by
      simp only [completeSeeded, _complete_poll]
      rw [htally]
      norm_num
    rw [hrun]
    exact ⟨htally, by simp, by simp, by simp, by simp, by simp, by simp⟩
  · have hc1 : ¬((N : ℤ) + 1 + ((M : ℤ) + 1) = 0) := by omega
    have hc1' : ¬(((N : ℤ), (M : ℤ)).1 + ((N : ℤ), (M : ℤ)).2 = 0) := by
      simp only []
      omega
    by_cases hlt : M < N
    · have hc2 : (((N : ℤ), (M : ℤ)).2 < ((N : ℤ), (M : ℤ)).1) := by
        simp only []
        omega
      have hrun : completeSeeded N M st channel poll_ts action pr now =
          ({ (_execute_temperature_action st channel action (N : ℤ) (M : ℤ) pr now).1 with
              active_poll := none },
           Outcome.Approved,
           Event.reactionsGet channel poll_ts ::
             (_execute_temperature_action st channel action (N : ℤ) (M : ℤ) pr now).2
             ++ [Event.setActivePollNone]) := by
        simp only [completeSeeded, _complete_poll]
        rw [htally]
        rw [if_neg hc1', if_pos hc2]
      rw [hrun]
      obtain ⟨rest, hr⟩ := execute_head_dispatch st channel action (N : ℤ) (M : ℤ) pr now
      refine ⟨htally, by simp [hlt], ?_, ?_, ?_, by simp, by simp⟩
      · simp only [reduceCtorEq, false_iff]
        omega
      · simp only [reduceCtorEq, false_iff]
        omega
      · rw [hr]
        simp
    · have hc2 : ¬(((N : ℤ), (M : ℤ)).2 < ((N : ℤ), (M : ℤ)).1) := by
        simp only []
        omega
      have hrun : completeSeeded N M st channel poll_ts action pr now =
          ({ st with active_poll := none }, Outcome.Rejected,
           [Event.reactionsGet channel poll_ts,
            Event.chatPost channel (poll_rejected_text (N : ℤ) (M : ℤ)),
            Event.setActivePollNone]) := by
        simp only [completeSeeded, _complete_poll]
        rw [htally]
        rw [if_neg hc1', if_neg hc2]
      rw [hrun]
      refine ⟨htally, ?_, ?_, ?_, by simp, by simp, by simp⟩
      · simp only [reduceCtorEq, false_iff]
        omega
      · constructor
        · intro _
          omega
        · intro _
          rfl
      · simp only [reduceCtorEq, false_iff]
        omega

/-- C2 counterexample: at a concrete approved resolution the phone-call
dispatch occurs in the effect trace strictly before the active-poll slot is
cleared — the slot is not cleared before dispatch begins. -/
theorem C2_counterexample :
    approvedRun.2.1 = Outcome.Approved ∧
    Event.dispatchCall TemperatureAction.INCREASE ∈ approvedRun.2.2 ∧
    ¬ clearIdx approvedRun.2.2 < dispatchIdx approvedRun.2.2 := by
  decide

/-- A cons followed by a one-element concatenation ends in that element. -/
theorem getLast?_cons_concat (a x : Event) (l : List Event) :
    (a :: l ++ [x]).getLast? = some x :=
  List.getLast?_concat _

/-- C2 (amended): every poll resolution marks the poll resolved — the
returned state has the active-poll slot cleared — but the `finally` clearing
is the LAST effect of the resolution: on an Approved outcome the dispatch
occurs in the trace strictly before the slot is cleared, so a new poll can
open only once the resolution, dispatch included, has finished. -/
theorem C2_clear_after_dispatch (st : BotState) (channel poll_ts : String)
    (action : TemperatureAction) (rr : Except String (List (String × ℤ)))
    (pr : Except String String) (now : ℚ) :
    (_complete_poll st channel poll_ts action rr pr now).1.active_poll = none ∧
    (_complete_poll st channel poll_ts action rr pr now).2.2.getLast?
      = some Event.setActivePollNone ∧
    ((_complete_poll st channel poll_ts action rr pr now).2.1 = Outcome.Approved →
      Event.dispatchCall action ∈ (_complete_poll st channel poll_ts action rr pr now).2.2 ∧
      dispatchIdx (_complete_poll st channel poll_ts action rr pr now).2.2
        < clearIdx (_complete_poll st channel poll_ts action rr pr now).2.2) := by
  rcases rr with e | reactions
  · exact ⟨rfl, by simp [_complete_poll], by simp [_complete_poll]⟩
  · simp only [_complete_poll]
    split
    · exact ⟨rfl, by simp, by simp⟩
    · split
      · refine ⟨rfl, ?_, ?_⟩
        · exact getLast?_cons_concat _ _ _
        · intro _
          simp only [_execute_temperature_action]
          split
          · constructor
            · simp
            · simp [dispatchIdx, clearIdx, List.findIdx_cons, Event.isDispatch,
                    Event.isClearActive]
          · constructor
            · simp
            · simp [dispatchIdx, clearIdx, List.findIdx_cons, Event.isDispatch,
                    Event.isClearActive]
      · exact ⟨rfl, by simp, by simp⟩

/-- The cooldown branch of `handle_message`: a qualifying, non-edited message
inside the cooldown window posts the wait message (minutes rounded toward
zero) and changes nothing. -/
theorem handle_message_cooldown (st : BotState) (ev : MessageEvent) (now : ℚ)
    (poll_ts : String) (hsub : ev.subtype = none)
    (hact : parse_temperature_request ev.text ≠ TemperatureAction.NONE)
    (hcool : now - st.last_call_time < CALL_COOLDOWN_SECONDS) :
    handle_message st ev now poll_ts =
      (st, RouterResult.cooldownWait
          (pyInt ((CALL_COOLDOWN_SECONDS - (now - st.last_call_time)) / 60)),
       [Event.chatPost ev.channel (cooldown_wait_text
          (pyInt ((CALL_COOLDOWN_SECONDS - (now - st.last_call_time)) / 60)))]) := by
  simp [handle_message, hsub, hact, hcool]

/-- The active-poll branch of `handle_message`: outside the cooldown window
but with a poll already open, the redirect is posted and nothing changes. -/
theorem handle_message_active_poll (st : BotState) (ev : MessageEvent) (now : ℚ)
    (poll_ts : String) (hsub : ev.subtype = none)
    (hact : parse_temperature_request ev.text ≠ TemperatureAction.NONE)
    (hcool : ¬ now - st.last_call_time < CALL_COOLDOWN_SECONDS)
    (hpoll : st.active_poll.isSome = true) :
    handle_message st ev now poll_ts =
      (st, RouterResult.pollInProgress,
       [Event.chatPost ev.channel poll_in_progress_text]) := by
  simp [handle_message, hsub, hact, hcool, hpoll]

/-- The poll-opening branch of `handle_message`: outside the cooldown window
and with no active poll, `_start_poll` runs. -/
theorem handle_message_opens (st : BotState) (ev : MessageEvent) (now : ℚ)
    (poll_ts : String) (hsub : ev.subtype = none)
    (hact : parse_temperature_request ev.text ≠ TemperatureAction.NONE)
    (hcool : ¬ now - st.last_call_time < CALL_COOLDOWN_SECONDS)
    (hpoll : st.active_poll = none) :
    handle_message st ev now poll_ts =
      ((_start_poll st ev.channel (parse_temperature_request ev.text) ev.user poll_ts).1,
       RouterResult.startPoll (parse_temperature_request ev.text),
       (_start_poll st ev.channel (parse_temperature_request ev.text) ev.user poll_ts).2) := by
  simp [handle_message, hsub, hact, hcool, hpoll]

/-- C4: for a non-edited message classifying as Warmer or Cooler the router
applies its checks in priority order — inside the cooldown window
(`now - last_call_time < CALL_COOLDOWN_SECONDS`, the `isCoolingDown`
condition) it posts the wait message and opens no poll regardless of any
active poll; outside the window with an active poll it posts the redirect
and stops; only otherwise does it open a poll. -/
theorem C4_router_priority (st : BotState) (ev : MessageEvent) (now : ℚ)
    (poll_ts : String) (hsub : ev.subtype = none)
    (hact : parse_temperature_request ev.text ≠ TemperatureAction.NONE) :
    (now - st.last_call_time < CALL_COOLDOWN_SECONDS →
      handle_message st ev now poll_ts =
        (st, RouterResult.cooldownWait
            (pyInt ((CALL_COOLDOWN_SECONDS - (now - st.last_call_time)) / 60)),
         [Event.chatPost ev.channel (cooldown_wait_text
            (pyInt ((CALL_COOLDOWN_SECONDS - (now - st.last_call_time)) / 60)))])) ∧
    (¬ now - st.last_call_time < CALL_COOLDOWN_SECONDS → st.active_poll.isSome = true →
      handle_message st ev now poll_ts =
        (st, RouterResult.pollInProgress,
         [Event.chatPost ev.channel poll_in_progress_text])) ∧
    (¬ now - st.last_call_time < CALL_COOLDOWN_SECONDS → st.active_poll = none →
      (handle_message st ev now poll_ts).2.1
          = RouterResult.startPoll (parse_temperature_request ev.text) ∧
      ((handle_message st ev now poll_ts).1).active_poll.isSome = true) := by
  refine ⟨fun hcool => handle_message_cooldown st ev now poll_ts hsub hact hcool,
          fun hcool hpoll => handle_message_active_poll st ev now poll_ts hsub hact hcool hpoll,
          fun hcool hpoll => ?_⟩
  rw [handle_message_opens st ev now poll_ts hsub hact hcool hpoll]
  exact ⟨rfl, rfl⟩

/-- With 55 seconds of the window remaining, the posted minute count —
Python's `int((60 - 5) / 60)` — is zero. -/
theorem pyInt_remaining_five : pyInt ((CALL_COOLDOWN_SECONDS - (5 : ℚ)) / 60) = 0 := by
  have harg : (CALL_COOLDOWN_SECONDS - (5 : ℚ)) / 60 = 55 / 60 := by
    norm_num [CALL_COOLDOWN_SECONDS]
  have hnum : ((55 : ℚ) / 60).num = 11 := by norm_num
  have hden : ((55 : ℚ) / 60).den = 12 := by norm_num
  unfold pyInt
  rw [harg, hnum, hden]
  decide

/-- C4 witness: 5 seconds after a call, with a poll even still active, the
cooldown branch wins: wait message, no new poll, state unchanged. -/
theorem C4_witness :
    handle_message { last_call_time := 200, active_poll := some fixturePoll }
        { subtype := none, text := "cold", channel := "C", user := "u" } 205 "t9"
      = ({ last_call_time := 200, active_poll := some fixturePoll },
         RouterResult.cooldownWait 0,
         [Event.chatPost "C" (cooldown_wait_text 0)]) := by
  have h := (C4_router_priority { last_call_time := 200, active_poll := some fixturePoll }
      { subtype := none, text := "cold", channel := "C", user := "u" } 205 "t9" rfl
      (by decide)).1 (by norm_num [CALL_COOLDOWN_SECONDS])
  have h5 : (205 : ℚ) - ({ last_call_time := 200, active_poll := some fixturePoll } :
      BotState).last_call_time = 5 := by norm_num
  rw [h5, pyInt_remaining_five] at h
  exact h

/-- C8 counterexample: with the 60-second cooldown window, a qualifying
message 5 seconds after a successful dispatch is answered with a wait message
stating 0 remaining minutes (55 s rounds down to 0), not roughly one minute;
no poll opens. -/
theorem C8_counterexample :
    (handle_message { last_call_time := 1000, active_poll := none }
        { subtype := none, text := "it's too cold in here", channel := "general", user := "u2" }
        1005 "t3").2.1 = RouterResult.cooldownWait 0 ∧
    RouterResult.cooldownWait 0 ≠ RouterResult.cooldownWait 1 ∧
    (handle_message { last_call_time := 1000, active_poll := none }
        { subtype := none, text := "it's too cold in here", channel := "general", user := "u2" }
        1005 "t3").1.active_poll = none := by
  have h := handle_message_cooldown { last_call_time := 1000, active_poll := none }
      { subtype := none, text := "it's too cold in here", channel := "general", user := "u2" }
      1005 "t3" rfl (by decide) (by norm_num [CALL_COOLDOWN_SECONDS])
  have h5 : (1005 : ℚ) - ({ last_call_time := 1000, active_poll := none } :
      BotState).last_call_time = 5 := by norm_num
  rw [h5, pyInt_remaining_five] at h
  rw [h]
  exact ⟨rfl, by decide, rfl⟩

/-- C8 (amended): a qualifying message arriving 5 seconds after a successful
dispatch, with the 60-second cooldown window, is answered with a wait message
stating the remaining time in minutes rounded down — 0 minutes — and opens no
poll. -/
theorem C8_wait_message (st : BotState) (ev : MessageEvent) (now : ℚ)
    (poll_ts : String) (hsub : ev.subtype = none)
    (hact : parse_temperature_request ev.text ≠ TemperatureAction.NONE)
    (h5 : now - st.last_call_time = 5) :
    handle_message st ev now poll_ts =
      (st, RouterResult.cooldownWait 0,
       [Event.chatPost ev.channel (cooldown_wait_text 0)]) := by
  have hcool : now - st.last_call_time < CALL_COOLDOWN_SECONDS := by
    rw [h5]
    norm_num [CALL_COOLDOWN_SECONDS]
  have h := handle_message_cooldown st ev now poll_ts hsub hact hcool
  rw [h5, pyInt_remaining_five] at h
  exact h

/-- C8 witness: the concrete scenario, 5 seconds after a dispatch at time
300. -/
theorem C8_witness :
    handle_message { last_call_time := 300, active_poll := none }
        { subtype := none, text := "freezing", channel := "D", user := "v" } 305 "t4"
      = ({ last_call_time := 300, active_poll := none }, RouterResult.cooldownWait 0,
         [Event.chatPost "D" (cooldown_wait_text 0)]) :=
  C8_wait_message { last_call_time := 300, active_poll := none }
    { subtype := none, text := "freezing", channel := "D", user := "v" } 305 "t4"
    rfl (by decide) (by norm_num)

/-- C7 counterexample: interleaving the non-atomic active-poll check and
`_start_poll` write of two simultaneous qualifying handlers reaches a state
with two concurrently open polls. -/
theorem C7_counterexample :
    SysReachable { slotBusy := true, openCount := 2, checking := 0, opening := 0 } ∧
    ¬ ({ slotBusy := true, openCount := 2, checking := 0, opening := 0 } : SysState).openCount ≤ 1 := by
  refine ⟨?_, by decide⟩
  have h1 : SysStep sysInit ⟨false, 0, 1, 0⟩ := SysStep.arrive _
  have h2 : SysStep ⟨false, 0, 1, 0⟩ ⟨false, 0, 2, 0⟩ := SysStep.arrive _
  have h3 : SysStep ⟨false, 0, 2, 0⟩ ⟨false, 0, 1, 1⟩ := SysStep.checkFree _ (by decide) rfl
  have h4 : SysStep ⟨false, 0, 1, 1⟩ ⟨false, 0, 0, 2⟩ := SysStep.checkFree _ (by decide) rfl
  have h5 : SysStep ⟨false, 0, 0, 2⟩ ⟨true, 1, 0, 1⟩ := SysStep.openPoll _ (by decide)
  have h6 : SysStep ⟨true, 1, 0, 1⟩ ⟨true, 2, 0, 0⟩ := SysStep.openPoll _ (by decide)
  exact Relation.ReflTransGen.tail
    (Relation.ReflTransGen.tail
      (Relation.ReflTransGen.tail
        (Relation.ReflTransGen.tail
          (Relation.ReflTransGen.tail
            (Relation.ReflTransGen.tail Relation.ReflTransGen.refl h1) h2) h3) h4) h5) h6

/-- The single-slot invariant of the atomic system: the number of open polls
matches the slot's occupancy. -/
theorem seq_invariant (s : SeqState) (hs : SeqReachable s) :
    s.openCount = if s.slotBusy then 1 else 0 := by
  induction hs with
  | refl => rfl
  | tail hab hstep ih =>
      rename_i b c
      obtain ⟨l, hstep⟩ := hstep
      cases hstep with
      | msgOpen hb =>
          rw [hb] at ih
          simp at ih
          simp [ih]
      | msgRejected hb => exact ih
      | complete h =>
          cases hb : b.slotBusy
          · rw [hb] at ih
            simp at ih
            simp
            omega
          · rw [hb] at ih
            simp at ih
            simp
            omega

/-- C7 (amended): with the active-poll check and slot write performed
atomically per message (sequential processing — the repair the design notes
call for), every reachable state has at most one open poll; while the slot is
occupied a qualifying message changes nothing (it is only acknowledged), and
only the resolve step vacates the slot.  The interleaved, non-atomic system
of the source violates this (see the counterexample). -/
theorem C7_single_open_poll (s : SeqState) (hs : SeqReachable s) :
    s.openCount ≤ 1 ∧
    (∀ l t, SeqStep s l t → s.slotBusy = true →
      (l = StepLabel.message → t = s) ∧
      (t.slotBusy = false → l = StepLabel.resolve)) := by
  refine ⟨?_, ?_⟩
  · have h := seq_invariant s hs
    split at h <;> omega
  · intro l t hstep hb
    cases hstep with
    | msgOpen hb' =>
        rw [hb] at hb'
        exact Bool.noConfusion hb'
    | msgRejected hb' =>
        refine ⟨fun _ => rfl, fun hf => ?_⟩
        rw [hb] at hf
        exact Bool.noConfusion hf
    | complete h =>
        exact ⟨fun hl => (nomatch hl), fun _ => rfl⟩

/-- C7 witness: the state with one freshly opened poll is reachable and
satisfies the bound. -/
theorem C7_witness :
    ({ slotBusy := true, openCount := 1 } : SeqState).openCount ≤ 1 :=
  (C7_single_open_poll { slotBusy := true, openCount := 1 }
    (Relation.ReflTransGen.tail Relation.ReflTransGen.refl
      ⟨StepLabel.message, SeqStep.msgOpen seqInit rfl⟩)).1

end TempBot
